import Mathlib

/-!
Verification development for the Okinawa Spectrum Logger application
(src/app.py): a Streamlit field-survey dashboard backed by a Google
Sheets worksheet with a local CSV backup.  The Python functions and
handler blocks are shallowly embedded as executable Lean definitions,
and the theorems below settle the specified properties against them.

Modelling conventions:
* A stored cell value is either a number or a string (`Value`); a
  record field that may be absent from the underlying Python dict is
  an `Option Value` (`none` means the key is absent).
* Numbers are modelled as rationals.  Python `float(...)` and
  `pd.to_numeric` string parsing are modelled by `parseDecimal?`,
  which accepts an optional sign, an integer part and an optional
  fractional part (exponent notation, surrounding whitespace and the
  special words inf and nan do not occur in this application's data
  and are not modelled).
* External effects (the gspread API calls, the CSV file write) are
  modelled by explicit parameters saying whether the underlying call
  raises; a Lean function returning `Except Unit α` propagates an
  exception to its caller exactly when it returns `.error ()`.
-/

namespace Okinawa

/-- A value stored in a record field or worksheet cell: a number or a
string.  Python distinguishes int and float, but `1 == 1.0` holds
there, so a single rational constructor is faithful for equality. -/
inductive Value where
  | num (q : Rat)
  | str (s : String)
deriving DecidableEq

/-- Numeric value of one decimal digit character, as used by Python
float parsing; `none` on a non-digit. -/
def digitVal? (c : Char) : Option Nat :=
  if c.isDigit then some (c.toNat - 48) else none

/-- Left fold accumulating the value of a big-endian digit string;
`none` as soon as a non-digit appears.  The empty list folds to 0. -/
def valFold (cs : List Char) : Option Nat :=
  cs.foldl
    (fun acc c =>
      match acc, digitVal? c with
      | some a, some d => some (10 * a + d)
      | _, _ => none)
    (some 0)

/-- Parse an unsigned decimal literal (digits, optionally with one
decimal point; at least one digit overall), as Python float does after
the sign has been stripped. -/
def parseUnsigned? (cs : List Char) : Option Rat :=
  let ip := cs.takeWhile (fun c => c ≠ '.')
  let rest := cs.dropWhile (fun c => c ≠ '.')
  match rest with
  | [] =>
    if ip.isEmpty then none
    else (valFold ip).map (fun n => (n : Rat))
  | _ :: fp =>
    if fp.contains '.' then none
    else if ip.isEmpty && fp.isEmpty then none
    else
      match valFold ip, valFold fp with
      | some a, some b => some ((a : Rat) + (b : Rat) / ((10 : Rat) ^ fp.length))
      | _, _ => none

/-- Parse a signed decimal literal, modelling the common string-number
grammar of Python `float` and `pd.to_numeric`; `none` models a parse
failure (ValueError / NaN coercion). -/
def parseDecimal? (s : String) : Option Rat :=
  if s.data.head? = some '-' then (parseUnsigned? s.data.tail).map (fun q => -q)
  else if s.data.head? = some '+' then parseUnsigned? s.data.tail
  else if s.data.isEmpty then none
  else parseUnsigned? s.data

/-- Decimal rendering of a natural number, as Python str(int) emits
it: big-endian digits, with "0" for zero. -/
def natToString (n : Nat) : String :=
  if n = 0 then "0" else ⟨((Nat.digits 10 n).map Nat.digitChar).reverse⟩

/-- Decimal rendering of an integer, as Python str(int) emits it. -/
def intToString (i : Int) : String :=
  if i < 0 then "-" ++ natToString i.natAbs else natToString i.toNat

/-- Characters other than the exponent markers of a float literal. -/
def notExpChar (c : Char) : Bool := c ≠ 'e' && c ≠ 'E'

/-- Mantissa part of an unsigned float literal: everything before the
first exponent marker. -/
def mantissaOf (cs : List Char) : List Char := cs.takeWhile notExpChar

/-- Exponent part of an unsigned float literal: what follows the
first exponent marker, or `none` when there is no marker. -/
def expTailOf (cs : List Char) : Option (List Char) :=
  match cs.dropWhile notExpChar with
  | [] => none
  | _ :: t => some t

/-- Parse the exponent of a float literal: an optionally signed,
non-empty digit string. -/
def parseExp? (cs : List Char) : Option Int :=
  match cs with
  | '-' :: t => if t.isEmpty then none else (valFold t).map (fun n => -(n : Int))
  | '+' :: t => if t.isEmpty then none else (valFold t).map (fun n => (n : Int))
  | t => if t.isEmpty then none else (valFold t).map (fun n => (n : Int))

/-- Parse an unsigned numeric literal as the pandas read_csv
tokenizer accepts it: a decimal mantissa with an optional exponent
part. -/
def unsignedNumeric? (cs : List Char) : Option Rat :=
  match expTailOf cs with
  | none => parseUnsigned? (mantissaOf cs)
  | some e =>
    match parseUnsigned? (mantissaOf cs), parseExp? e with
    | some q, some k => some (q * (10 : Rat) ^ k)
    | _, _ => none

/-- Parse a signed numeric literal in the grammar the pandas read_csv
C tokenizer uses for column type inference: optional sign, decimal
mantissa, optional exponent (for example 17, -2.5, 1e5, 1.5E-3).
Exact rationals stand in for the binary floats pandas produces. -/
def parseNumeric? (s : String) : Option Rat :=
  if s.data.head? = some '-' then (unsignedNumeric? s.data.tail).map (fun q => -q)
  else if s.data.head? = some '+' then unsignedNumeric? s.data.tail
  else if s.data.isEmpty then none
  else unsignedNumeric? s.data

/-- A survey record, i.e. one entry of st.session_state.logs: a Python
dict whose keys are the eight fixed field names.  `none` models an
absent key (possible for records hydrated from an externally edited
worksheet or CSV file). -/
structure Record where
  Location : Option Value
  Hard_Y_Authenticity : Option Value
  Hard_X_Affect : Option Value
  Soft_Y_Correctness : Option Value
  Soft_X_Affect : Option Value
  Comment : Option Value
  Image_Path : Option Value
  Timestamp : Option Value
deriving DecidableEq

/-- A record with no keys at all (getD fallback object). -/
def emptyRecord : Record := ⟨none, none, none, none, none, none, none, none⟩

/-- The header row written by save_to_gsheet (app.py lines 53-57). -/
def HEADERS : List Value :=
  [.str "Location", .str "Hard_Y_Authenticity", .str "Hard_X_Affect",
   .str "Soft_Y_Correctness", .str "Soft_X_Affect",
   .str "Comment", .str "Image_Path", .str "Timestamp"]

/-- The data row built from a log entry by save_to_gsheet (app.py
lines 61-70): log_entry.get(key, default) for each column. -/
def rowOf (log_entry : Record) : List Value :=
  [log_entry.Location.getD (.str ""),
   log_entry.Hard_Y_Authenticity.getD (.num 0),
   log_entry.Hard_X_Affect.getD (.num 0),
   log_entry.Soft_Y_Correctness.getD (.num 0),
   log_entry.Soft_X_Affect.getD (.num 0),
   log_entry.Comment.getD (.str ""),
   log_entry.Image_Path.getD (.str ""),
   log_entry.Timestamp.getD (.str "")]

/-- Embedding of load_from_gsheet (app.py lines 35-45).  The gspread
call worksheet.get_all_records() is modelled by the parameter fetch:
`.error ()` means the call raised; `.ok records` is its result.  The
pandas fillna round-trip on a nonempty result is the identity here
because gspread never yields NaN cells (empty cells arrive as "").
The try/except wrapper catches every exception, so the function
always returns `.ok`. -/
def load_from_gsheet (fetch : Except Unit (List Record)) :
    Except Unit (List Record) :=
  .ok (match fetch with
       | .ok records => if records.isEmpty then [] else records
       | .error _ => [])

/-- Embedding of save_to_gsheet (app.py lines 48-74).  The parameter
raises says whether the gspread calls inside the try block raise (the
failure is modelled as happening before any write).  On success the
function appends the header row first when get_all_values() returned
an empty list, then appends the data row, and returns True; on
failure it returns False.  The try/except wrapper catches every
exception, so the function always returns `.ok`. -/
def save_to_gsheet (ws : List (List Value)) (log_entry : Record)
    (raises : Bool) : Except Unit (List (List Value) × Bool) :=
  .ok (if raises then (ws, false)
       else
         let ws1 := if ws.isEmpty then ws ++ [HEADERS] else ws
         (ws1 ++ [rowOf log_entry], true))

/-- The gspread worksheet.delete_rows call: rows are addressed
1-based; an out-of-range index makes the API raise, modelled as
`none`. -/
def delete_rows (ws : List (List Value)) (r : Nat) :
    Option (List (List Value)) :=
  if 1 ≤ r ∧ r ≤ ws.length then some (ws.eraseIdx (r - 1)) else none

/-- Embedding of delete_from_gsheet (app.py lines 77-84): deletes
sheet row row_index + 2 (1-based; the header occupies row 1, so data
row 0 is sheet row 2).  Any exception, including an out-of-range API
error, is caught and turned into False.  The function always returns
`.ok`. -/
def delete_from_gsheet (ws : List (List Value)) (row_index : Nat)
    (raises : Bool) : Except Unit (List (List Value) × Bool) :=
  .ok (if raises then (ws, false)
       else
         match delete_rows ws (row_index + 2) with
         | some ws1 => (ws1, true)
         | none => (ws, false))

/-- The local backup write pd.DataFrame(logs).to_csv(...) on app.py
lines 182 and 312.  It is not wrapped in any try/except, so a failing
file write (parameter raises) propagates to the caller as
`.error ()`; on success the snapshot of the whole store is the new
file content. -/
def backupWrite (raises : Bool) (logs : List Record) :
    Except Unit (List Record) :=
  if raises then .error () else .ok logs

/-- Boolean success test for an embedded operation result. -/
def isOkE {α : Type} : Except Unit α → Bool
  | .ok _ => true
  | .error _ => false

/-- Per-cell semantics of pd.to_numeric(col, errors=coerce) on one
stored field (app.py line 214): a number stays itself, a string is
parsed, anything unparseable (or an absent key, i.e. NaN in the
DataFrame) becomes none/NaN. -/
def to_numeric_coerce (v : Option Value) : Option Rat :=
  match v with
  | none => none
  | some (.num q) => some q
  | some (.str s) => parseDecimal? s

/-- Value a rating field shows on the two scatter charts: the
coerced number with NaN filled by 0 (app.py line 214,
pd.to_numeric(...).fillna(0)). -/
def chartCoerce (v : Option Value) : Rat :=
  (to_numeric_coerce v).getD 0

/-- One rating column of the scatter-chart DataFrame.  A column
exists in pd.DataFrame(records) exactly when at least one record has
the key; px.scatter raises (modelled as `none`) when the named column
is absent, which happens only when every record lacks the field. -/
def scatterColumn (vals : List (Option Value)) : Option (List Rat) :=
  if vals.all Option.isNone then none else some (vals.map chartCoerce)

/-- Value a rating field shows on the vector view, from app.py lines
263-266: float(log.get(key, 0) or 0).  An absent key gives the int 0;
a falsy value (the number 0 or the empty string) is replaced by 0
before float() is applied; float() of a non-empty string parses it or
raises ValueError, modelled as `none`. -/
def vectorCoerce (v : Option Value) : Option Rat :=
  match v with
  | none => some 0
  | some (.num q) => some q
  | some (.str s) => if s = "" then some 0 else parseDecimal? s

/-- The chart pipeline reads the store and builds a fresh DataFrame
(app.py line 209); it never assigns st.session_state.logs, so the
store after rendering is the store before rendering. -/
def storeAfterRender (logs : List Record) : List Record := logs

/-- The fixed coordinate registry LAT_LON (app.py lines 99-107),
with coordinates as exact rationals. -/
def LAT_LON : List (String × (Rat × Rat)) :=
  [("アメリカンビレッジ (北谷)", (26316/1000, 127756/1000)),
   ("ピザハウス (夕食)", (26262/1000, 127733/1000)),
   ("むら咲むら (読谷)", (26406/1000, 127718/1000)),
   ("ホテル日航アリビラ (ランチ)", (26413/1000, 127715/1000)),
   ("座喜味城跡 (読谷)", (26408/1000, 127742/1000)),
   ("佐喜眞美術館 (宜野湾)", (26273/1000, 127754/1000)),
   ("那覇港・フェリー (海上)", (26216/1000, 127674/1000))]

/-- Dictionary lookup of a location name in LAT_LON. -/
def lookupLatLon (s : String) : Option (Rat × Rat) :=
  (LAT_LON.find? (fun p => p.1 = s)).map (fun p => p.2)

/-- Marker color choice from app.py line 198:
blue if log.get(Hard_Y_Authenticity, 0) >= 0 else red.  An absent key
compares 0 >= 0, a number compares normally, and a string operand
makes the Python comparison raise TypeError, modelled as `none`. -/
def icon_color (v : Option Value) : Option String :=
  match v with
  | none => some "blue"
  | some (.num q) => some (if 0 ≤ q then "blue" else "red")
  | some (.str _) => none

/-- A folium marker as the map view creates it: position from the
registry, labelled and colored. -/
structure Marker where
  loc : String
  lat : Rat
  lon : Rat
  color : String
deriving DecidableEq

/-- Embedding of the map marker loop (app.py lines 195-204): one
marker per record whose Location value is a key of LAT_LON, colored
by icon_color.  The whole render aborts (`none`) when a record has no
Location key (KeyError on log[Location]) or when icon_color raises. -/
def mapMarkers : List Record → Option (List Marker)
  | [] => some []
  | r :: rest =>
    match r.Location with
    | none => none
    | some (.num _) => mapMarkers rest
    | some (.str s) =>
      match lookupLatLon s with
      | none => mapMarkers rest
      | some p =>
        match icon_color r.Hard_Y_Authenticity with
        | none => none
        | some c => (mapMarkers rest).map (fun ms => ⟨s, p.1, p.2, c⟩ :: ms)

/-- Whether a record's Location is a string matching a registry key
(the membership test on app.py line 196). -/
def matchesRegistry (r : Record) : Bool :=
  match r.Location with
  | some (.str s) => (lookupLatLon s).isSome
  | _ => false

/-- The Location string of a record, defaulting to "". -/
def locStr (r : Record) : String :=
  match r.Location with
  | some (.str s) => s
  | _ => ""

/-- The numeric Hard_Y_Authenticity of a record when it is a number,
with the 0 default of log.get for an absent key. -/
def hardYNum (r : Record) : Rat :=
  match r.Hard_Y_Authenticity with
  | some (.num q) => q
  | _ => 0

/-- The marker the map view is expected to produce for a
registry-matching record. -/
def expectedMarker (r : Record) : Marker :=
  let p := (lookupLatLon (locStr r)).getD (0, 0)
  ⟨locStr r, p.1, p.2, if 0 ≤ hardYNum r then "blue" else "red"⟩

/-- Whether a record carries a Location key at all (its absence makes
the marker loop raise KeyError). -/
def locPresent (r : Record) : Bool := r.Location.isSome

/-- Whether a record's Hard_Y_Authenticity is not a string (a string
there makes the marker color comparison raise TypeError).  The data
model declares the rating an integer, so this is the well-typedness
assumption of the map view. -/
def hardYNotStr (r : Record) : Bool :=
  match r.Hard_Y_Authenticity with
  | some (.str _) => false
  | _ => true

/-- Result state of one run of the submit handler. -/
structure SubmitResult where
  logs : List Record
  ws : List (List Value)
  backup : Option (List Record)
  remoteOk : Bool
  uiSuccess : Bool
deriving DecidableEq

/-- Embedding of the submit button handler (app.py lines 176-184):
append the new log to the in-memory store, call save_to_gsheet when
the remote backend is enabled (return value ignored), rewrite the
local CSV backup, then show the success message.  The CSV write is
unguarded, so its failure propagates and the success message is
skipped. -/
def submitHandler (gsheetEnabled : Bool) (logs : List Record)
    (ws : List (List Value)) (newLog : Record)
    (remoteRaises csvRaises : Bool) : Except Unit SubmitResult :=
  let logs1 := logs ++ [newLog]
  match (if gsheetEnabled then save_to_gsheet ws newLog remoteRaises
         else .ok (ws, false)) with
  | .error e => .error e
  | .ok (ws1, ok) =>
    match backupWrite csvRaises logs1 with
    | .error e => .error e
    | .ok snap => .ok ⟨logs1, ws1, some snap, ok, true⟩

/-- Observable step of the delete handler, used to state in which
order its effects happen. -/
inductive DelEvent where
  | removePhoto (p : String)
  | remoteDelete (i : Nat)
  | popLocal (i : Nat)
  | writeBackup
deriving DecidableEq

/-- Result state of one run of the delete handler. -/
structure DeleteResult where
  logs : List Record
  ws : List (List Value)
  files : List String
  backup : List Record
  trace : List DelEvent
deriving DecidableEq

/-- The photo file the delete handler removes, from app.py lines
301-306: img_path = log.get(Image_Path, ""), removed when it is a
non-empty string naming an existing file (the isinstance check makes
a numeric value fall through). -/
def photoTarget (r : Record) (files : List String) : Option String :=
  match r.Image_Path with
  | some (.str s) => if s ≠ "" ∧ s ∈ files then some s else none
  | _ => none

/-- Embedding of the delete button handler (app.py lines 304-313), in
source order: remove the photo file if present, call
delete_from_gsheet when the remote backend is enabled (return value
ignored), pop position i from the in-memory store, rewrite the local
CSV backup.  The CSV write is unguarded, so its failure propagates.
The trace records the order of the steps. -/
def deleteHandler (gsheetEnabled : Bool) (logs : List Record)
    (ws : List (List Value)) (files : List String) (i : Nat)
    (remoteRaises csvRaises : Bool) : Except Unit DeleteResult :=
  let log := logs.getD i emptyRecord
  let step1 :=
    match photoTarget log files with
    | some p => (files.erase p, [DelEvent.removePhoto p])
    | none => (files, ([] : List DelEvent))
  let step2 :=
    if gsheetEnabled then
      match delete_from_gsheet ws i remoteRaises with
      | .ok pr => (pr.1, [DelEvent.remoteDelete i])
      | .error _ => (ws, [DelEvent.remoteDelete i])
    else (ws, ([] : List DelEvent))
  let logs1 := logs.eraseIdx i
  match backupWrite csvRaises logs1 with
  | .error e => .error e
  | .ok snap =>
    .ok ⟨logs1, step2.1, step1.1, snap,
         step1.2 ++ step2.2 ++ [DelEvent.popLocal i, DelEvent.writeBackup]⟩

/-- Embedding of the per-interaction store refresh (app.py lines
123-125): when the remote backend is enabled, the store is reassigned
from load_from_gsheet at the start of every script run, discarding
whatever the previous interaction left in memory; otherwise the
previous store is kept. -/
def interactionStart (gsheetEnabled : Bool)
    (fetch : Except Unit (List Record)) (prevLogs : List Record) :
    Except Unit (List Record) :=
  if gsheetEnabled then load_from_gsheet fetch else .ok prevLogs

/-- A record as the entry form constructs it (app.py lines 166-175):
every key present, the four ratings integers from the sliders, the
other four fields strings. -/
structure SubmittedRecord where
  Location : String
  Hard_Y_Authenticity : Int
  Hard_X_Affect : Int
  Soft_Y_Correctness : Int
  Soft_X_Affect : Int
  Comment : String
  Image_Path : String
  Timestamp : String
deriving DecidableEq

/-- The Record (Python dict) a submitted form produces. -/
def embedRecord (r : SubmittedRecord) : Record :=
  ⟨some (.str r.Location),
   some (.num (r.Hard_Y_Authenticity : Rat)),
   some (.num (r.Hard_X_Affect : Rat)),
   some (.num (r.Soft_Y_Correctness : Rat)),
   some (.num (r.Soft_X_Affect : Rat)),
   some (.str r.Comment),
   some (.str r.Image_Path),
   some (.str r.Timestamp)⟩

/-- The CSV line pd.DataFrame(logs).to_csv writes for one submitted
record: each value rendered as text, integers in decimal.  The header
line and the quoting layer are inverted exactly by read_csv and are
left implicit; a row is its list of cell texts in the fixed column
order. -/
def toCsvRow (r : SubmittedRecord) : List String :=
  [r.Location, intToString r.Hard_Y_Authenticity,
   intToString r.Hard_X_Affect, intToString r.Soft_Y_Correctness,
   intToString r.Soft_X_Affect, r.Comment, r.Image_Path, r.Timestamp]

/-- The data lines of the CSV backup file written from a list of
submitted records (app.py line 182). -/
def toCsv (logs : List SubmittedRecord) : List (List String) :=
  logs.map toCsvRow

/-- The default NA sentinel strings of pd.read_csv (its na_values
default): any cell spelled exactly like one of these is read as NaN
before dtype inference, so after line 116's fillna("") it hydrates
as the empty string. -/
def NA_SENTINELS : List String :=
  ["", "#N/A", "#N/A N/A", "#NA", "-1.#IND", "-1.#QNAN", "-NaN", "-nan",
   "1.#IND", "1.#QNAN", "<NA>", "N/A", "NA", "NULL", "NaN", "None",
   "n/a", "nan", "null"]

/-- Whether a cell is one of the read_csv default NA sentinels. -/
def isNA (c : String) : Bool := decide (c ∈ NA_SENTINELS)

/-- Lowercases the letters that can occur in the IEEE special-float
spellings; every other character is left alone, since its presence
makes the case-insensitive comparison below fail whatever its case
is. -/
def lowerSpecialChar (c : Char) : Char :=
  if c = 'N' then 'n' else if c = 'A' then 'a' else if c = 'I' then 'i'
  else if c = 'F' then 'f' else if c = 'T' then 't' else if c = 'Y' then 'y'
  else c

/-- Spellings the pandas tokenizer reads (case-insensitively) as the
IEEE special floats: infinities, and the case variants of nan that
are not already NA sentinels.  These values have no counterpart among
the exact rationals of this embedding, so strCellSafe excludes them
and no theorem depends on how readCell treats them. -/
def ieeeSpecial (c : String) : Bool :=
  decide (c.data.map lowerSpecialChar ∈
    (["nan", "+nan", "-nan", "inf", "+inf", "-inf",
      "infinity", "+infinity", "-infinity"].map String.data))

/-- Spellings the pandas tokenizer reads as booleans. -/
def boolLike (c : String) : Bool :=
  decide (c ∈ ["True", "TRUE", "true", "False", "FALSE", "false"])

/-- The value a cell of a bool-inferred column hydrates to.  Python
compares True == 1 and False == 0, so the numeric model is faithful
for record equality. -/
def boolVal (c : String) : Value :=
  if c ∈ (["True", "TRUE", "true"] : List String) then .num 1 else .num 0

/-- Column j of a CSV table (data rows only). -/
def colOf (rows : List (List String)) (j : Nat) : List String :=
  rows.map (fun row => row.getD j "")

/-- Whether pd.read_csv infers column j numeric: every cell is an NA
sentinel or tokenizes as a number (including exponent forms and the
IEEE special spellings). -/
def colAllNum (rows : List (List String)) (j : Nat) : Bool :=
  (colOf rows j).all (fun c => isNA c || (parseNumeric? c).isSome || ieeeSpecial c)

/-- Whether pd.read_csv infers column j boolean: every cell is a bool
spelling (a bool column cannot hold NaN, so NA cells prevent the
inference and the column stays object). -/
def colAllBool (rows : List (List String)) (j : Nat) : Bool :=
  (colOf rows j).all (fun c => boolLike c)

/-- How pd.read_csv plus fillna("") reconstructs one cell: an NA
sentinel becomes NaN and fillna turns it into ""; a remaining cell
becomes a number when the column was inferred numeric, a boolean when
the column was inferred boolean, and otherwise stays the original
string.  In a numeric column the only cells the rational parser
cannot value are IEEE special spellings, which strCellSafe keeps out
of every theorem. -/
def readCell (allNum allBool : Bool) (c : String) : Value :=
  if isNA c then .str ""
  else if allNum then
    match parseNumeric? c with
    | some q => .num q
    | none => .str c
  else if allBool then boolVal c
  else .str c

/-- Embedding of the CSV hydration path (app.py lines 113-121):
pd.read_csv with per-column dtype inference, fillna(""), and
to_dict(records).  An empty file raises EmptyDataError which the code
catches by using the empty store, consistent with the empty-table
case here. -/
def readCsv (rows : List (List String)) : List Record :=
  rows.map (fun row =>
    ⟨some (readCell (colAllNum rows 0) (colAllBool rows 0) (row.getD 0 "")),
     some (readCell (colAllNum rows 1) (colAllBool rows 1) (row.getD 1 "")),
     some (readCell (colAllNum rows 2) (colAllBool rows 2) (row.getD 2 "")),
     some (readCell (colAllNum rows 3) (colAllBool rows 3) (row.getD 3 "")),
     some (readCell (colAllNum rows 4) (colAllBool rows 4) (row.getD 4 "")),
     some (readCell (colAllNum rows 5) (colAllBool rows 5) (row.getD 5 "")),
     some (readCell (colAllNum rows 6) (colAllBool rows 6) (row.getD 6 "")),
     some (readCell (colAllNum rows 7) (colAllBool rows 7) (row.getD 7 ""))⟩)

/-- A string cell that survives the CSV round trip unchanged: empty,
or recognised by the tokenizer as nothing at all - not an NA
sentinel, not a numeric literal (exponent forms included), not an
IEEE special spelling, not a boolean spelling.  Any such cell keeps
its column from being inferred numeric or boolean and hydrates back
to itself. -/
def strCellSafe (s : String) : Prop :=
  s = "" ∨ (isNA s = false ∧ parseNumeric? s = none
    ∧ ieeeSpecial s = false ∧ boolLike s = false)

instance : DecidablePred strCellSafe := fun s => by
  unfold strCellSafe; infer_instance

/-- All four string fields of a submitted record are round-trip
safe. -/
def strFieldsSafe (r : SubmittedRecord) : Prop :=
  strCellSafe r.Location ∧ strCellSafe r.Comment ∧
    strCellSafe r.Image_Path ∧ strCellSafe r.Timestamp

instance : DecidablePred strFieldsSafe := fun r => by
  unfold strFieldsSafe; infer_instance

/-- Rows after the save_to_gsheet append whose last row is preceded
by a header row somewhere above it. -/
def lastRowPrecededByHeader (ws : List (List Value)) : Prop :=
  HEADERS ∈ ws.dropLast

instance : DecidablePred lastRowPrecededByHeader := fun ws => by
  unfold lastRowPrecededByHeader; infer_instance

theorem digitVal?_digitChar {d : Nat} (hd : d < 10) :
    digitVal? (Nat.digitChar d) = some d := by
  interval_cases d <;> decide

theorem digitChar_ne_dot {d : Nat} (hd : d < 10) : Nat.digitChar d ≠ '.' := by
  interval_cases d <;> decide

theorem valFold_append_digit (cs : List Char) (d : Nat) (hd : d < 10) :
    valFold (cs ++ [Nat.digitChar d]) =
      match valFold cs with
      | some a => some (10 * a + d)
      | none => none := by
  have h : valFold (cs ++ [Nat.digitChar d]) =
      match valFold cs, digitVal? (Nat.digitChar d) with
      | some a, some e => some (10 * a + e)
      | _, _ => none := by
    unfold valFold
    rw [List.foldl_append]
    rfl
  rw [h, digitVal?_digitChar hd]
  cases valFold cs <;> rfl

theorem valFold_rev_digits (ds : List Nat) (h : ∀ d ∈ ds, d < 10) :
    valFold ((ds.map Nat.digitChar).reverse) = some (Nat.ofDigits 10 ds) := by
  induction ds with
  | nil => rfl
  | cons d t ih =>
    have hd : d < 10 := h d (List.mem_cons_self d t)
    have ht : ∀ x ∈ t, x < 10 := fun x hx => h x (List.mem_cons_of_mem d hx)
    simp only [List.map_cons, List.reverse_cons]
    rw [valFold_append_digit _ d hd, ih ht]
    simp [Nat.ofDigits_cons]
    ring

theorem digitChar_ne_minus {d : Nat} (hd : d < 10) : Nat.digitChar d ≠ '-' := by
  interval_cases d <;> decide

theorem digitChar_ne_plus {d : Nat} (hd : d < 10) : Nat.digitChar d ≠ '+' := by
  interval_cases d <;> decide

theorem natToString_data_digits (n : Nat) :
    ∀ c ∈ (natToString n).data, ∃ d, d < 10 ∧ c = Nat.digitChar d := by
  intro c hc
  by_cases h0 : n = 0
  · subst h0
    simp only [natToString, if_pos rfl] at hc
    refine ⟨0, by norm_num, ?_⟩
    simpa using hc
  · simp only [natToString, if_neg h0] at hc
    rw [List.mem_reverse] at hc
    obtain ⟨d, hd, rfl⟩ := List.mem_map.mp hc
    exact ⟨d, Nat.digits_lt_base (by norm_num) hd, rfl⟩

theorem parseUnsigned?_natToString (n : Nat) :
    parseUnsigned? (natToString n).data = some (n : Rat) := by
  by_cases h0 : n = 0
  · subst h0; decide
  · have hne : Nat.digits 10 n ≠ [] := Nat.digits_ne_nil_iff_ne_zero.mpr h0
    have hdata : (natToString n).data = ((Nat.digits 10 n).map Nat.digitChar).reverse := by
      simp [natToString, h0]
    have hnodot : ∀ c ∈ ((Nat.digits 10 n).map Nat.digitChar).reverse, c ≠ '.' := by
      intro c hc
      rw [List.mem_reverse] at hc
      obtain ⟨d, hd, rfl⟩ := List.mem_map.mp hc
      exact digitChar_ne_dot (Nat.digits_lt_base (by norm_num) hd)
    have htake : (((Nat.digits 10 n).map Nat.digitChar).reverse).takeWhile
        (fun c => c ≠ '.') = ((Nat.digits 10 n).map Nat.digitChar).reverse := by
      rw [List.takeWhile_eq_self_iff]
      intro x hx
      simpa using hnodot x hx
    have hdrop : (((Nat.digits 10 n).map Nat.digitChar).reverse).dropWhile
        (fun c => c ≠ '.') = [] := by
      rw [List.dropWhile_eq_nil_iff]
      intro x hx
      simpa using hnodot x hx
    have hval : valFold (((Nat.digits 10 n).map Nat.digitChar).reverse) = some n := by
      rw [valFold_rev_digits _ (fun d hd => Nat.digits_lt_base (by norm_num) hd),
        Nat.ofDigits_digits]
    have hemp : (((Nat.digits 10 n).map Nat.digitChar).reverse).isEmpty = false := by
      simp [hne]
    rw [hdata]
    unfold parseUnsigned?
    simp only [htake, hdrop, hemp, hval]
    rfl

theorem parseDecimal?_natToString (n : Nat) :
    parseDecimal? (natToString n) = some (n : Rat) := by
  cases hL : (natToString n).data with
  | nil =>
    exfalso
    by_cases h0 : n = 0
    · subst h0; simp [natToString] at hL
    · have hne : Nat.digits 10 n ≠ [] := Nat.digits_ne_nil_iff_ne_zero.mpr h0
      simp [natToString, h0, hne] at hL
  | cons c rest =>
    obtain ⟨d, hd, rfl⟩ := natToString_data_digits n c (hL ▸ List.mem_cons_self c rest)
    unfold parseDecimal?
    rw [hL]
    simp only [List.head?_cons, Option.some.injEq]
    rw [if_neg (digitChar_ne_minus hd), if_neg (digitChar_ne_plus hd),
      if_neg (by simp : ¬(Nat.digitChar d :: rest).isEmpty = true)]
    rw [← hL, parseUnsigned?_natToString]

theorem parseDecimal?_intToString (i : Int) :
    parseDecimal? (intToString i) = some (i : Rat) := by
  by_cases hi : i < 0
  · have hdata : (intToString i).data = '-' :: (natToString i.natAbs).data := by
      simp only [intToString, if_pos hi]
      rw [String.data_append]
      rfl
    unfold parseDecimal?
    rw [hdata]
    simp only [List.head?_cons, List.tail_cons, if_true]
    rw [parseUnsigned?_natToString, Option.map_some']
    congr 1
    rw [Int.cast_natAbs, abs_of_neg hi]
    push_cast
    ring
  · have hdata : intToString i = natToString i.toNat := by
      simp [intToString, hi]
    rw [hdata, parseDecimal?_natToString]
    congr 1
    have : ((i.toNat : Int) : Rat) = (i : Rat) := by
      rw [Int.toNat_of_nonneg (not_lt.mp hi)]
    push_cast at this
    exact this

theorem nodup_not_mem_erase {l : List String} (h : l.Nodup) (p : String) :
    p ∉ l.erase p := by
  induction l with
  | nil => simp
  | cons a t ih =>
    obtain ⟨ha, ht⟩ := List.nodup_cons.mp h
    by_cases hap : a = p
    · subst hap
      rw [List.erase_cons_head]
      exact ha
    · rw [List.erase_cons_tail (by simpa using fun hx => hap hx)]
      intro hm
      rcases List.mem_cons.mp hm with hm | hm
      · exact hap hm.symm
      · exact ih ht hm

/-- Claim C2 fails as stated: the local backup-file write on submit
and on delete is not guarded, so when the underlying to_csv write
raises, the exception propagates out of both handlers. -/
theorem C2_counterexample :
    submitHandler true [] [] emptyRecord false true = .error ()
      ∧ deleteHandler true [emptyRecord] [] [] 0 false true = .error () := by
  exact ⟨rfl, rfl⟩

/-- C2 as amended: the three remote persistence operations catch all
errors internally and degrade to an empty list or False, never
propagating; the local backup write, however, is unguarded and
propagates exactly when the underlying file write raises. -/
theorem C2_amended_error_handling (fetch : Except Unit (List Record))
    (ws : List (List Value)) (e : Record) (i : Nat) (b : Bool)
    (logs : List Record) :
    isOkE (load_from_gsheet fetch) = true
      ∧ isOkE (save_to_gsheet ws e b) = true
      ∧ isOkE (delete_from_gsheet ws i b) = true
      ∧ isOkE (backupWrite b logs) = !b := by
  refine ⟨rfl, rfl, rfl, ?_⟩
  cases b <;> rfl

/-- C3 confirmed: on submit with the remote backend enabled (and the
local file writable), the in-memory store, the backup snapshot and
the success message are produced whether or not the remote append
raises; on remote success the worksheet gains the new row, on remote
failure it is unchanged. -/
theorem C3_submit_outcomes (logs : List Record) (ws : List (List Value))
    (e : Record) (rr : Bool) :
    ∃ r : SubmitResult, submitHandler true logs ws e rr false = .ok r
      ∧ r.logs = logs ++ [e]
      ∧ r.backup = some (logs ++ [e])
      ∧ r.uiSuccess = true
      ∧ (rr = false → rowOf e ∈ r.ws)
      ∧ (rr = true → r.ws = ws) := by
  cases rr with
  | false =>
    refine ⟨⟨logs ++ [e], (if ws.isEmpty then ws ++ [HEADERS] else ws) ++ [rowOf e],
      some (logs ++ [e]), true, true⟩, rfl, rfl, rfl, rfl, fun _ => by simp,
      fun hx => Bool.noConfusion hx⟩
  | true =>
    exact ⟨⟨logs ++ [e], ws, some (logs ++ [e]), false, true⟩, rfl, rfl, rfl, rfl,
      fun hx => Bool.noConfusion hx, fun _ => rfl⟩

/-- Witness for C3_submit_outcomes with an unreachable remote. -/
theorem C3_witness :
    ∃ r : SubmitResult, submitHandler true [] [] emptyRecord true false = .ok r
      ∧ r.logs = [emptyRecord] ∧ r.ws = [] := by
  obtain ⟨r, h1, h2, -, -, -, h6⟩ := C3_submit_outcomes [] [] emptyRecord true
  exact ⟨r, h1, h2, h6 rfl⟩

/-- C4 confirmed: deleting position i keeps records before i, shifts
records after i down by one (the store becomes take i ++ drop (i+1)),
and if the deleted record names an existing photo file that file is
gone afterwards. -/
theorem C4_delete_removes_exactly (ge rr : Bool) (logs : List Record)
    (ws : List (List Value)) (files : List String) (i : Nat)
    (hi : i < logs.length) (hnd : files.Nodup) :
    ∃ r : DeleteResult, deleteHandler ge logs ws files i rr false = .ok r
      ∧ r.logs = logs.take i ++ logs.drop (i + 1)
      ∧ (∀ p, (logs.getD i emptyRecord).Image_Path = some (.str p) → p ≠ "" →
          p ∈ files → p ∉ r.files) := by
  refine ⟨_, rfl, ?_, ?_⟩
  · exact List.eraseIdx_eq_take_drop_succ logs i
  · intro p hp hne hmem
    have hpt : photoTarget (logs.getD i emptyRecord) files = some p := by
      simp only [photoTarget, hp]
      rw [if_pos ⟨hne, hmem⟩]
    simp only [hpt]
    exact nodup_not_mem_erase hnd p

/-- Witness for C4_delete_removes_exactly: deleting the only record
removes it and its photo file. -/
theorem C4_witness :
    ∃ r : DeleteResult,
      deleteHandler false
        [⟨some (.str "X"), some (.num 1), none, none, none, none,
          some (.str "photos/a.png"), none⟩]
        [] ["photos/a.png"] 0 false false = .ok r
      ∧ r.logs = [] ∧ "photos/a.png" ∉ r.files := by
  obtain ⟨r, h1, h2, h3⟩ :=
    C4_delete_removes_exactly false false
      [⟨some (.str "X"), some (.num 1), none, none, none, none,
        some (.str "photos/a.png"), none⟩]
      [] ["photos/a.png"] 0 (by decide) (by decide)
  exact ⟨r, h1, by simpa using h2, h3 "photos/a.png" rfl (by decide) (by decide)⟩

/-- C7 confirmed: for a worksheet consisting of a header row followed
by the data rows, deleting in-memory position i via
delete_from_gsheet removes exactly data row i (the call translates i
to 1-based sheet row i + 2). -/
theorem C7_delete_row_translation (header : List Value)
    (dataRows : List (List Value)) (i : Nat) (hi : i < dataRows.length) :
    delete_from_gsheet (header :: dataRows) i false =
      .ok (header :: dataRows.eraseIdx i, true) := by
  have hcond : 1 ≤ i + 2 ∧ i + 2 ≤ (header :: dataRows).length := by
    simp only [List.length_cons]
    omega
  simp only [delete_from_gsheet, delete_rows, if_pos hcond]
  rfl

/-- Witness for C7_delete_row_translation on a one-row sheet. -/
theorem C7_witness :
    delete_from_gsheet [HEADERS, rowOf emptyRecord] 0 false =
      .ok ([HEADERS], true) := by
  simpa using C7_delete_row_translation HEADERS [rowOf emptyRecord] 0 (by decide)

/-- Claim C8 fails as stated: appending to a non-empty worksheet that
holds no header row (for example one stray row of junk) appends only
the data row, so the new data row is not preceded by a header row. -/
theorem C8_counterexample :
    save_to_gsheet [[Value.str "junk"]] emptyRecord false =
        .ok ([[Value.str "junk"], rowOf emptyRecord], true)
      ∧ ¬ lastRowPrecededByHeader [[Value.str "junk"], rowOf emptyRecord] := by
  exact ⟨rfl, by decide⟩

/-- C8 as amended: the append writes the header first only when the
worksheet is empty; the new data row therefore ends up preceded by a
header row when the prior sheet was empty or already contained the
header row (every state this application itself produces), but not in
an arbitrary prior state. -/
theorem C8_amended_header (ws : List (List Value)) (e : Record) :
    (ws = [] → save_to_gsheet ws e false = .ok ([HEADERS, rowOf e], true)
        ∧ lastRowPrecededByHeader [HEADERS, rowOf e])
      ∧ (ws ≠ [] → save_to_gsheet ws e false = .ok (ws ++ [rowOf e], true))
      ∧ (HEADERS ∈ ws → ∃ ws1, save_to_gsheet ws e false = .ok (ws1, true)
          ∧ lastRowPrecededByHeader ws1) := by
  refine ⟨?_, ?_, ?_⟩
  · rintro rfl
    exact ⟨rfl, by simp [lastRowPrecededByHeader]⟩
  · intro hne
    have he : ws.isEmpty = false := by simpa using hne
    simp [save_to_gsheet, he]
  · intro hmem
    have hne : ws ≠ [] := List.ne_nil_of_mem hmem
    have he : ws.isEmpty = false := by simpa using hne
    refine ⟨ws ++ [rowOf e], by simp [save_to_gsheet, he], ?_⟩
    rw [lastRowPrecededByHeader, List.dropLast_concat]
    exact hmem

/-- Witness for C8_amended_header: appending to a sheet already
holding the header keeps the new row header-preceded. -/
theorem C8_witness :
    ∃ ws1, save_to_gsheet [HEADERS] emptyRecord false = .ok (ws1, true)
      ∧ lastRowPrecededByHeader ws1 := by
  exact (C8_amended_header [HEADERS] emptyRecord).2.2 (by decide)

/-- C9 confirmed: with the remote backend enabled, the store at the
start of an interaction is exactly the reload result, independent of
whatever the previous interaction left in memory; a failed reload
gives the empty store, and a record survives into the interaction
exactly when the remote fetch returned it. -/
theorem C9_reload_every_interaction (fetch : Except Unit (List Record))
    (prev prev2 : List Record) :
    interactionStart true fetch prev = interactionStart true fetch prev2
      ∧ interactionStart true fetch prev = load_from_gsheet fetch
      ∧ (fetch = .error () → interactionStart true fetch prev = .ok [])
      ∧ (∀ rs, fetch = .ok rs → ∀ rec : Record,
          (∃ l, interactionStart true fetch prev = .ok l ∧ rec ∈ l) ↔ rec ∈ rs) := by
  refine ⟨rfl, rfl, ?_, ?_⟩
  · rintro rfl
    rfl
  · rintro rs rfl rec
    by_cases he : rs.isEmpty
    · have hrs : rs = [] := by simpa using he
      subst hrs
      constructor
      · rintro ⟨l, hl, hm⟩
        have : l = [] := by
          simpa [interactionStart, load_from_gsheet] using hl.symm
        subst this
        exact absurd hm (by simp)
      · intro hm
        exact absurd hm (by simp)
    · have he2 : rs.isEmpty = false := by simpa using he
      constructor
      · rintro ⟨l, hl, hm⟩
        have : rs = l := by
          simpa [interactionStart, load_from_gsheet, he2] using hl
        exact this ▸ hm
      · intro hm
        exact ⟨rs, by simp [interactionStart, load_from_gsheet, he2], hm⟩

/-- Witness for C9_reload_every_interaction: a failing reload empties
the store even though the previous interaction had a record. -/
theorem C9_witness :
    interactionStart true (.error ()) [emptyRecord] = .ok [] := by
  exact (C9_reload_every_interaction (.error ()) [emptyRecord] []).2.2.1 rfl

/-- C10 confirmed: the delete handler removes the photo and attempts
the remote delete before the in-memory pop and backup rewrite (the
trace order), proceeds identically whether or not the remote delete
raised, and on a raised remote delete leaves the worksheet unchanged
while the store, backup and photo directory have already lost the
record. -/
theorem C10_delete_not_atomic (logs : List Record)
    (ws : List (List Value)) (files : List String) (i : Nat) (rr : Bool)
    (hi : i < logs.length) :
    ∃ r : DeleteResult, deleteHandler true logs ws files i rr false = .ok r
      ∧ r.logs = logs.eraseIdx i
      ∧ r.backup = logs.eraseIdx i
      ∧ r.trace = (match photoTarget (logs.getD i emptyRecord) files with
          | some p => [DelEvent.removePhoto p]
          | none => []) ++
            [DelEvent.remoteDelete i, DelEvent.popLocal i, DelEvent.writeBackup]
      ∧ r.files = (match photoTarget (logs.getD i emptyRecord) files with
          | some p => files.erase p
          | none => files)
      ∧ (rr = true → r.ws = ws) := by
  refine ⟨_, rfl, rfl, rfl, ?_, ?_, ?_⟩
  · cases hpt : photoTarget (logs.getD i emptyRecord) files <;>
      simp [hpt, delete_from_gsheet]
  · cases hpt : photoTarget (logs.getD i emptyRecord) files <;>
      simp [hpt, delete_from_gsheet]
  · rintro rfl
    rfl

/-- Witness for C10_delete_not_atomic: with the remote delete
raising, the record is gone from the store while the worksheet keeps
its rows. -/
theorem C10_witness :
    ∃ r : DeleteResult,
      deleteHandler true [emptyRecord] [HEADERS, rowOf emptyRecord] [] 0 true false
          = .ok r
      ∧ r.logs = [] ∧ r.ws = [HEADERS, rowOf emptyRecord] := by
  obtain ⟨r, h1, h2, -, -, -, h6⟩ :=
    C10_delete_not_atomic [emptyRecord] [HEADERS, rowOf emptyRecord] [] 0 true
      (by decide)
  exact ⟨r, h1, by simpa using h2, h6 rfl⟩

/-- C6 confirmed: for a store whose records all carry a Location key
and whose Hard_Y_Authenticity values are numbers or absent (as the
data model requires of ratings), the map shows exactly one marker per
record whose Location string matches a registry key, in store order,
and each marker's color is blue when the record's
Hard_Y_Authenticity is non-negative (0 for an absent key) and red
when it is negative. -/
theorem C6_map_markers (logs : List Record)
    (h : ∀ r ∈ logs, locPresent r = true ∧ hardYNotStr r = true) :
    mapMarkers logs = some ((logs.filter matchesRegistry).map expectedMarker) := by
  induction logs with
  | nil => rfl
  | cons r rest ih =>
    obtain ⟨hloc, hhy⟩ := h r (List.mem_cons_self r rest)
    have ih2 := ih (fun x hx => h x (List.mem_cons_of_mem r hx))
    cases hL : r.Location with
    | none => simp [locPresent, hL] at hloc
    | some v =>
      cases v with
      | num q =>
        simp [mapMarkers, hL, ih2, List.filter_cons, matchesRegistry]
      | str s =>
        cases hll : lookupLatLon s with
        | none =>
          simp [mapMarkers, hL, hll, ih2, List.filter_cons, matchesRegistry]
        | some p =>
          cases hhyv : r.Hard_Y_Authenticity with
          | none =>
            simp [mapMarkers, hL, hll, hhyv, ih2, List.filter_cons,
              matchesRegistry, icon_color, expectedMarker, locStr, hardYNum]
          | some w =>
            cases w with
            | str s2 => simp [hardYNotStr, hhyv] at hhy
            | num q =>
              simp [mapMarkers, hL, hll, hhyv, ih2, List.filter_cons,
                matchesRegistry, icon_color, expectedMarker, locStr, hardYNum]

/-- Witness for C6_map_markers on a concrete store: a registry match
with positive rating gives a blue marker, a freeform location gives
no marker, and a registry match with negative rating gives a red
marker. -/
theorem C6_witness :
    mapMarkers
        [⟨some (.str "座喜味城跡 (読谷)"), some (.num 20), some (.num (-10)),
          some (.num 30), some (.num 40), some (.str ""), some (.str ""),
          some (.str "2025-01-01 00:00:00")⟩,
         ⟨some (.str "名もなきグスク"), some (.num 5), none, none, none,
          some (.str ""), some (.str ""), some (.str "2025-01-01 00:00:01")⟩,
         ⟨some (.str "ピザハウス (夕食)"), some (.num (-3)), none, none, none,
          some (.str ""), some (.str ""), some (.str "2025-01-01 00:00:02")⟩] =
      some [⟨"座喜味城跡 (読谷)", 26408/1000, 127742/1000, "blue"⟩,
            ⟨"ピザハウス (夕食)", 26262/1000, 127733/1000, "red"⟩] := by
  rw [C6_map_markers _ (by decide)]
  rfl

theorem intToString_data_ne_nil (i : Int) : (intToString i).data ≠ [] := by
  unfold intToString
  by_cases hi : i < 0
  · rw [if_pos hi, String.data_append]
    intro hx
    exact absurd (List.append_eq_nil.mp hx).1 (by decide)
  · rw [if_neg hi]
    unfold natToString
    by_cases h0 : i.toNat = 0
    · rw [if_pos h0]
      decide
    · rw [if_neg h0]
      have hne : Nat.digits 10 i.toNat ≠ [] := Nat.digits_ne_nil_iff_ne_zero.mpr h0
      simpa using hne

theorem intToString_ne_empty (i : Int) : intToString i ≠ "" := by
  intro h
  exact intToString_data_ne_nil i (by rw [h])

theorem digitChar_notExpChar {d : Nat} (hd : d < 10) :
    notExpChar (Nat.digitChar d) = true := by
  interval_cases d <;> decide

theorem digitChar_isDigit {d : Nat} (hd : d < 10) :
    (Nat.digitChar d).isDigit = true := by
  interval_cases d <;> decide

theorem unsignedNumeric?_natToString (n : Nat) :
    unsignedNumeric? (natToString n).data = some (n : Rat) := by
  have hchars : ∀ c ∈ (natToString n).data, notExpChar c = true := by
    intro c hc
    obtain ⟨d, hd, rfl⟩ := natToString_data_digits n c hc
    exact digitChar_notExpChar hd
  have hdrop : (natToString n).data.dropWhile notExpChar = [] :=
    List.dropWhile_eq_nil_iff.mpr hchars
  have htake : (natToString n).data.takeWhile notExpChar = (natToString n).data :=
    List.takeWhile_eq_self_iff.mpr hchars
  unfold unsignedNumeric? expTailOf mantissaOf
  rw [hdrop, htake]
  exact parseUnsigned?_natToString n

theorem parseNumeric?_natToString (n : Nat) :
    parseNumeric? (natToString n) = some (n : Rat) := by
  cases hL : (natToString n).data with
  | nil =>
    exfalso
    by_cases h0 : n = 0
    · subst h0; simp [natToString] at hL
    · have hne : Nat.digits 10 n ≠ [] := Nat.digits_ne_nil_iff_ne_zero.mpr h0
      simp [natToString, h0, hne] at hL
  | cons c rest =>
    obtain ⟨d, hd, rfl⟩ := natToString_data_digits n c (hL ▸ List.mem_cons_self c rest)
    unfold parseNumeric?
    rw [hL]
    simp only [List.head?_cons, Option.some.injEq]
    rw [if_neg (digitChar_ne_minus hd), if_neg (digitChar_ne_plus hd),
      if_neg (by simp : ¬(Nat.digitChar d :: rest).isEmpty = true)]
    rw [← hL, unsignedNumeric?_natToString]

theorem parseNumeric?_intToString (i : Int) :
    parseNumeric? (intToString i) = some (i : Rat) := by
  by_cases hi : i < 0
  · have hdata : (intToString i).data = '-' :: (natToString i.natAbs).data := by
      simp only [intToString, if_pos hi]
      rw [String.data_append]
      rfl
    unfold parseNumeric?
    rw [hdata]
    simp only [List.head?_cons, List.tail_cons, if_true]
    rw [unsignedNumeric?_natToString, Option.map_some']
    congr 1
    rw [Int.cast_natAbs, abs_of_neg hi]
    push_cast
    ring
  · have hdata : intToString i = natToString i.toNat := by
      simp [intToString, hi]
    rw [hdata, parseNumeric?_natToString]
    congr 1
    have : ((i.toNat : Int) : Rat) = (i : Rat) := by
      rw [Int.toNat_of_nonneg (not_lt.mp hi)]
    push_cast at this
    exact this

theorem intToString_chars (i : Int) :
    ∀ c ∈ (intToString i).data, c = '-' ∨ c.isDigit = true := by
  intro c hc
  unfold intToString at hc
  by_cases hi : i < 0
  · rw [if_pos hi, String.data_append] at hc
    rcases List.mem_append.mp hc with h1 | h2
    · left
      have hdash : ("-" : String).data = ['-'] := rfl
      rw [hdash] at h1
      simpa using h1
    · right
      obtain ⟨d, hd, rfl⟩ := natToString_data_digits _ c h2
      exact digitChar_isDigit hd
  · rw [if_neg hi] at hc
    right
    obtain ⟨d, hd, rfl⟩ := natToString_data_digits _ c hc
    exact digitChar_isDigit hd

theorem isNA_intToString (i : Int) : isNA (intToString i) = false := by
  by_contra h
  have hmem : intToString i ∈ NA_SENTINELS := by
    have hT : isNA (intToString i) = true := by
      cases hx : isNA (intToString i)
      · exact absurd hx h
      · rfl
    exact of_decide_eq_true hT
  have hgood : (intToString i).data.all (fun c => c = '-' || c.isDigit) = true := by
    rw [List.all_eq_true]
    intro c hc
    rcases intToString_chars i c hc with rfl | hdig
    · simp
    · simp [hdig]
  have hbad : ∀ t ∈ NA_SENTINELS,
      t = "" ∨ t.data.all (fun c => c = '-' || c.isDigit) = false := by
    decide
  rcases hbad _ hmem with hx | hx
  · exact intToString_ne_empty i hx
  · rw [hgood] at hx
    exact Bool.noConfusion hx

theorem readCell_int (b : Bool) (n : Int) :
    readCell true b (intToString n) = .num (n : Rat) := by
  simp [readCell, isNA_intToString n, parseNumeric?_intToString]

theorem readCell_str (fN fB : Bool) (s : String) (hs : strCellSafe s)
    (hn : fN = true → s = "") (hb : fB = true → s = "") :
    readCell fN fB s = .str s := by
  by_cases hse : s = ""
  · subst hse
    cases fN <;> cases fB <;> rfl
  · have hfN : fN = false := by
      cases fN
      · rfl
      · exact absurd (hn rfl) hse
    have hfB : fB = false := by
      cases fB
      · rfl
      · exact absurd (hb rfl) hse
    subst hfN
    subst hfB
    rcases hs with hx | ⟨hna, -, -, -⟩
    · exact absurd hx hse
    · simp [readCell, hna]

end Okinawa
